import Mathlib

/-!
Verification development for the SecureCheck police-ledger repository
(`data_cleaning.py`, `process_data.py`, `app.py`).

The development shallowly embeds:
* the pandas normalizer `preprocess_data` (both the copy in
  `data_cleaning.py` and the near-identical copy in `process_data.py`)
  as a function on a column-major data-frame model,
* an explicit-heap version of the same pipeline, to reason about which
  pandas objects the in-place operations write to,
* the SQLite analytics queries and the record-search query from
  `app.py` as functions on lists of stop records, and
* the bulk loader `create_and_load_database` from `process_data.py`.
-/

/-- A calendar date, as produced by `pd.to_datetime(...).dt.date`. -/
structure YMD where
  year : Nat
  month : Nat
  day : Nat
deriving DecidableEq

/-- A time of day, as produced by `pd.to_datetime(...).dt.time`. -/
structure HMS where
  hour : Nat
  minute : Nat
  second : Nat
deriving DecidableEq

/-- A data-frame cell value.  `vNull` models pandas missing values
(`NaN`/`NaT`); the other constructors model the Python values that occur in
the modelled columns (strings, booleans, integers, `datetime.date`,
`datetime.time`).  Floats other than `NaN` do not occur in the modelled
columns and are not represented. -/
inductive Val where
  | vNull
  | vStr (s : String)
  | vBool (b : Bool)
  | vInt (n : Int)
  | vDate (d : YMD)
  | vTime (t : HMS)
deriving DecidableEq

/-- A pandas DataFrame, modelled column-major: a list of
(column name, cell values) pairs.  Row `i` of the frame is the `i`-th entry
of every column. -/
abbrev DataFrame := List (String × List Val)

/-- Column access `df[n]`: the values of the first column named `n`, if any.  Pandas
raises `KeyError` when the column is absent; callers model that case. -/
def getCol (n : String) (df : DataFrame) : Option (List Val) :=
  (df.find? (fun c => c.1 == n)).map (fun c => c.2)

/-- Column assignment `df[n] = vs`: replace the values of every column named `n` (the frames
produced by `read_csv` have unique column names, so at most one column is
affected). -/
def setCol (n : String) (vs : List Val) (df : DataFrame) : DataFrame :=
  df.map (fun c => if c.1 == n then (c.1, vs) else c)

/-- Model of `df.dropna(axis=1, how='all')`: drop every column whose values are all
missing.  (pandas drops a column exactly when its count of non-NA entries
is zero, which also drops every column of a zero-row frame.) -/
def dropAllNullCols (df : DataFrame) : DataFrame :=
  df.filter (fun c => c.2.any (fun v => !(v == Val.vNull)))

/-- Model of `df.drop(columns=[n], errors='ignore')`: drop the column named `n` when
present, and do nothing otherwise. -/
def dropColIgnore (n : String) (df : DataFrame) : DataFrame :=
  df.filter (fun c => !(c.1 == n))

/-- Effect of `Series.fillna(dflt)` on one cell: a missing value becomes the string
`dflt`; every other value is kept. -/
def fillVal (dflt : String) (v : Val) : Val :=
  if v == Val.vNull then Val.vStr dflt else v

/-- Python truthiness, as applied elementwise by `Series.astype(bool)`:
non-empty strings (including the string "false") are `True`, non-zero
integers are `True`, booleans are themselves, and dates/times are `True`.
Missing values read from a CSV are the float `NaN`, and `bool(NaN)` is
`True`. -/
def pyBool : Val → Bool
  | Val.vNull => true
  | Val.vStr s => !(s == "")
  | Val.vBool b => b
  | Val.vInt n => !(n == 0)
  | Val.vDate _ => true
  | Val.vTime _ => true

/-- Split a character list at every occurrence of `sep`. -/
def splitOnChar (sep : Char) : List Char → List (List Char)
  | [] => [[]]
  | c :: cs =>
    let r := splitOnChar sep cs
    if c == sep then [] :: r
    else
      match r with
      | [] => [[c]]
      | g :: gs => (c :: g) :: gs

/-- Read a non-empty all-digit character list as a natural number. -/
def digitsToNat? (cs : List Char) : Option Nat :=
  if cs.isEmpty then none
  else
    cs.foldl
      (fun acc c =>
        match acc with
        | none => none
        | some n => if c.isDigit then some (n * 10 + (c.toNat - 48)) else none)
      (some 0)

/-- Parse a date string.  The source dataset's `stop_date` column holds ISO
`YYYY-MM-DD` strings; `pd.to_datetime` accepts further formats, but only
this one occurs in the modelled inputs. -/
def parseDateStr (s : String) : Option YMD :=
  match (splitOnChar '-' s.toList).map digitsToNat? with
  | [some y, some m, some d] =>
    if 1 ≤ m ∧ m ≤ 12 ∧ 1 ≤ d ∧ d ≤ 31 then some ⟨y, m, d⟩ else none
  | _ => none

/-- Parse an `HH:MM:SS` time string, the format named explicitly in
`data_cleaning.py` (`format='%H:%M:%S'`). -/
def parseTimeStr (s : String) : Option HMS :=
  match (splitOnChar ':' s.toList).map digitsToNat? with
  | [some h, some m, some sec] =>
    if h ≤ 23 ∧ m ≤ 59 ∧ sec ≤ 59 then some ⟨h, m, sec⟩ else none
  | _ => none

/-- One cell of `pd.to_datetime(col).dt.date`: strings are parsed, missing
values pass through as `NaT`, existing `datetime.date` values are accepted
unchanged, and every other object (booleans, `datetime.time`, ...) makes
`pd.to_datetime` raise. -/
def parseDateVal : Val → Except String Val
  | Val.vStr s =>
    match parseDateStr s with
    | some d => Except.ok (Val.vDate d)
    | none => Except.error ("date parse error: " ++ s)
  | Val.vNull => Except.ok Val.vNull
  | Val.vDate d => Except.ok (Val.vDate d)
  | _ => Except.error "not convertible to datetime"

/-- One cell of `pd.to_datetime(col, format='%H:%M:%S').dt.time`: strings
are parsed, missing values pass through, and every other object is
rejected.  In particular `pd.to_datetime` raises
`TypeError: <class 'datetime.time'> is not convertible to datetime` on the
`datetime.time` values the pipeline itself produces. -/
def parseTimeVal : Val → Except String Val
  | Val.vStr s =>
    match parseTimeStr s with
    | some t => Except.ok (Val.vTime t)
    | none => Except.error ("time parse error: " ++ s)
  | Val.vNull => Except.ok Val.vNull
  | _ => Except.error "not convertible to datetime"

/-- Elementwise effectful map over a column's values, failing at the first
failing cell, like a vectorized pandas operation. -/
def mapE (f : Val → Except String Val) : List Val → Except String (List Val)
  | [] => Except.ok []
  | v :: vs => do
    let w ← f v
    let ws ← mapE f vs
    Except.ok (w :: ws)

/-- Column update `df[n] = f(df[n])` for a vectorized operation `f`: raises `KeyError`
when the column is missing (pandas evaluates `df[n]` first), otherwise
applies `f` to every cell and stores the result back in the column. -/
def mapColM (f : Val → Except String Val) (n : String) (df : DataFrame) :
    Except String DataFrame :=
  match getCol n df with
  | none => Except.error ("KeyError: " ++ n)
  | some vs => do
    let ws ← mapE f vs
    Except.ok (setCol n ws df)

/-- The normalizer `preprocess_data` of `data_cleaning.py` (the copy in
`process_data.py` runs the same steps; its `pd.to_datetime` call for
`stop_time` merely infers the `%H:%M:%S` format instead of naming it).
Steps, in source order: drop all-null columns, drop `driver_age_raw`,
fill missing `search_type` with "None Conducted", fill missing
`vehicle_number` with "Unknown", coerce the three boolean columns with
`astype(bool)`, parse `stop_date` to dates, parse `stop_time` to times. -/
def preprocess_data (df : DataFrame) : Except String DataFrame := do
  let c1 := dropAllNullCols df
  let c2 := dropColIgnore "driver_age_raw" c1
  let c3 ← mapColM (fun v => Except.ok (fillVal "None Conducted" v)) "search_type" c2
  let c4 ← mapColM (fun v => Except.ok (fillVal "Unknown" v)) "vehicle_number" c3
  let c5 ← mapColM (fun v => Except.ok (Val.vBool (pyBool v))) "search_conducted" c4
  let c6 ← mapColM (fun v => Except.ok (Val.vBool (pyBool v))) "is_arrested" c5
  let c7 ← mapColM (fun v => Except.ok (Val.vBool (pyBool v))) "drugs_related_stop" c6
  let c8 ← mapColM parseDateVal "stop_date" c7
  let c9 ← mapColM parseTimeVal "stop_time" c8
  Except.ok c9

/-- Predicate form of `Except.isOk`, as a plain definition. -/
def isOkE {ε α : Type} : Except ε α → Bool
  | Except.ok _ => true
  | Except.error _ => false

deriving instance DecidableEq for Except

/-- A heap of pandas DataFrame objects, for reasoning about which objects
the in-place operations of `preprocess_data` write to.  Heap addresses are
list positions. -/
abbrev Heap := List DataFrame

/-- The in-place tail of `preprocess_data`: each step reads the DataFrame
at address `r` and, on success, writes the updated frame back to the same
address — exactly what `df_cleaned[col].fillna(..., inplace=True)` and
`df_cleaned[col] = ...` do to the `df_cleaned` object.  On a missing
column or a parse failure the function raises, leaving the heap as it is. -/
def runInPlace : Heap → Nat → List (DataFrame → Except String DataFrame) → Heap
  | h, _, [] => h
  | h, r, s :: rest =>
    match h.get? r with
    | none => h
    | some d =>
      match s d with
      | Except.error _ => h
      | Except.ok d' => runInPlace (h.set r d') r rest

/-- The seven column-mutating statements of `preprocess_data`, in source
order. -/
def dcInPlaceSteps : List (DataFrame → Except String DataFrame) :=
  [mapColM (fun v => Except.ok (fillVal "None Conducted" v)) "search_type",
   mapColM (fun v => Except.ok (fillVal "Unknown" v)) "vehicle_number",
   mapColM (fun v => Except.ok (Val.vBool (pyBool v))) "search_conducted",
   mapColM (fun v => Except.ok (Val.vBool (pyBool v))) "is_arrested",
   mapColM (fun v => Except.ok (Val.vBool (pyBool v))) "drugs_related_stop",
   mapColM parseDateVal "stop_date",
   mapColM parseTimeVal "stop_time"]

/-- Heap semantics of `preprocess_data`: address 0 holds the caller's
DataFrame `df`; `df.dropna(axis=1, how='all')` returns a fresh object
(address 1); `.drop(columns=['driver_age_raw'], errors='ignore')` returns
another fresh object (address 2), which the variable `df_cleaned` then
refers to; all subsequent statements mutate address 2 in place. -/
def preprocess_data_heap (df : DataFrame) : Heap :=
  runInPlace [df, dropAllNullCols df, dropColIgnore "driver_age_raw" (dropAllNullCols df)]
    2 dcInPlaceSteps

/-- One row of the `traffic_stops` table, with the schema of
`process_data.py` (`CREATE TABLE traffic_stops ...`).  Columns without a
`NOT NULL` constraint are `Option`-valued.  `stop_id` is the integer
primary key assigned at load time. -/
structure TrafficStop where
  stop_id : Nat
  stop_date : YMD
  stop_time : HMS
  country_name : String
  driver_gender : Option String
  driver_age : Option Int
  driver_race : Option String
  violation_raw : Option String
  violation : String
  search_conducted : Bool
  search_type : Option String
  stop_outcome : Option String
  is_arrested : Bool
  stop_duration : Option String
  drugs_related_stop : Bool
  vehicle_number : Option String
deriving DecidableEq

/-- Build a stop record, defaulting the fields that the modelled queries
never inspect. -/
def mkStop (sid : Nat) (d : YMD) (t : HMS) (cn : String) (vn : Option String)
    (age : Option Int) (viol : String) (sc arr drugs : Bool) : TrafficStop :=
  { stop_id := sid, stop_date := d, stop_time := t, country_name := cn,
    driver_gender := some "M", driver_age := age, driver_race := some "Unknown",
    violation_raw := some viol, violation := viol, search_conducted := sc,
    search_type := none, stop_outcome := some "Citation", is_arrested := arr,
    stop_duration := some "<5 min", drugs_related_stop := drugs,
    vehicle_number := vn }

/-- SQLite `LIKE` compares characters case-insensitively for ASCII. -/
def likeEq (p c : Char) : Bool := p.toLower == c.toLower

/-- Fuelled SQLite `LIKE` matcher: `%` matches any (possibly empty)
substring, `_` matches any single character, and any other pattern
character matches itself up to ASCII case.  The fuel only drives the
recursion; `likeMatch` below always supplies enough. -/
def likeMatchF : Nat → List Char → List Char → Bool
  | 0, _, _ => false
  | _ + 1, [], cs => cs.isEmpty
  | fuel + 1, p :: ps, cs =>
    if p = '%' then
      likeMatchF fuel ps cs ||
        (match cs with
         | [] => false
         | _ :: cs' => likeMatchF fuel (p :: ps) cs')
    else
      match cs with
      | [] => false
      | c :: cs' => (if p = '_' then true else likeEq p c) && likeMatchF fuel ps cs'

/-- SQLite `string LIKE pattern`. -/
def likeMatch (ps cs : List Char) : Bool :=
  likeMatchF (ps.length + cs.length + 1) ps cs

/-- Test whether `t` matches an initial segment of `s`, comparing characters with ASCII case
folding. -/
def startsCI : List Char → List Char → Bool
  | [], _ => true
  | _ :: _, [] => false
  | p :: ps, c :: cs => likeEq p c && startsCI ps cs

/-- Test whether `t` occurs in `s` as a contiguous substring, up to ASCII case. -/
def substrCI (t : List Char) : List Char → Bool
  | [] => startsCI t []
  | c :: cs => startsCI t (c :: cs) || substrCI t cs

/-- Test whether `t` is literally an initial segment of `s` (case-sensitive). -/
def startsLit : List Char → List Char → Bool
  | [], _ => true
  | _ :: _, [] => false
  | p :: ps, c :: cs => (p == c) && startsLit ps cs

/-- Test whether `t` literally occurs in `s` as a contiguous substring
(case-sensitive): the plain reading of "contains as a substring". -/
def subLit (t : List Char) : List Char → Bool
  | [] => startsLit t []
  | c :: cs => startsLit t (c :: cs) || subLit t cs

/-- A search term with no `LIKE` metacharacter. -/
def noWild (t : List Char) : Prop := ∀ c ∈ t, c ≠ '%' ∧ c ≠ '_'

/-- Lexicographic order on (date, time) pairs. -/
def dtLex (a b : YMD × HMS) : Prop :=
  a.1.year < b.1.year ∨
    (a.1.year = b.1.year ∧
      (a.1.month < b.1.month ∨
        (a.1.month = b.1.month ∧
          (a.1.day < b.1.day ∨
            (a.1.day = b.1.day ∧
              (a.2.hour < b.2.hour ∨
                (a.2.hour = b.2.hour ∧
                  (a.2.minute < b.2.minute ∨
                    (a.2.minute = b.2.minute ∧
                      a.2.second ≤ b.2.second)))))))))

instance : DecidableRel dtLex := fun a b => by
  unfold dtLex
  infer_instance

/-- Model of `ORDER BY stop_date DESC, stop_time DESC`: row `a` may precede row `b`
when `a`'s (date, time) key is at least `b`'s. -/
def searchOrder (a b : TrafficStop) : Prop :=
  dtLex (b.stop_date, b.stop_time) (a.stop_date, a.stop_time)

instance : DecidableRel searchOrder := fun a b => by
  unfold searchOrder
  infer_instance

instance : IsTotal TrafficStop searchOrder :=
  ⟨fun a b => by unfold searchOrder dtLex; omega⟩

instance : IsTrans TrafficStop searchOrder :=
  ⟨fun a b c h1 h2 => by unfold searchOrder dtLex at *; omega⟩

/-- The row filter of the quick-search query (`app.py` lines 180-184):
with an empty search term no `WHERE` clause is emitted; otherwise a row is
kept when `country_name LIKE '%term%' OR vehicle_number LIKE '%term%'`.
A SQL `NULL` vehicle number never satisfies `LIKE`.  The model assumes the
term contains no single quote (a quote makes the interpolated SQL text
malformed and the query fails wholesale). -/
def rowMatches (pat : List Char) (r : TrafficStop) : Bool :=
  likeMatch pat r.country_name.toList ||
    (match r.vehicle_number with
     | none => false
     | some v => likeMatch pat v.toList)

/-- The `WHERE` stage of `final_query`. -/
def searchFiltered (term : String) (rows : List TrafficStop) : List TrafficStop :=
  if term = "" then rows
  else rows.filter (rowMatches (("%" ++ term ++ "%").toList))

/-- Model of `final_query` in `app.py`: filter, `ORDER BY stop_date DESC,
stop_time DESC`, `LIMIT 50`.  SQL leaves the relative order of equal-key
rows unspecified; the model fixes one sorted arrangement, and the proved
properties do not depend on the tie order. -/
def recordSearch (term : String) (rows : List TrafficStop) : List TrafficStop :=
  (List.insertionSort searchOrder (searchFiltered term rows)).take 50

/-- The `CASE` expression of the "Arrest Rate by Driver Age Group" query:
three closed `BETWEEN` brackets, and an `ELSE '46+'` branch that catches
every remaining age. -/
def ageGroup (age : Int) : String :=
  if 16 ≤ age ∧ age ≤ 25 then "16-25"
  else if 26 ≤ age ∧ age ≤ 35 then "26-35"
  else if 36 ≤ age ∧ age ≤ 45 then "36-45"
  else "46+"

/-- The same `CASE` applied to the nullable `driver_age` column: SQL
`NULL BETWEEN a AND b` is not true, so a `NULL` age also falls to the
`ELSE` branch. -/
def ageGroupOfCol : Option Int → String
  | none => "46+"
  | some a => ageGroup a

/-- Model of `GROUP BY` keys: the distinct values of a key expression, first
occurrence first. -/
def distinctKeys (ks : List String) : List String :=
  ks.foldl (fun acc k => if acc.contains k then acc else acc ++ [k]) []

/-- Order on (label, rate) rows for `ORDER BY rate DESC`. -/
def rateDescOrder (a b : String × ℚ) : Prop := b.2 ≤ a.2

instance : DecidableRel rateDescOrder := fun a b =>
  inferInstanceAs (Decidable (b.2 ≤ a.2))

instance : IsTotal (String × ℚ) rateDescOrder := ⟨fun a b => le_total b.2 a.2⟩

instance : IsTrans (String × ℚ) rateDescOrder := ⟨fun _ _ _ h1 h2 => le_trans h2 h1⟩

/-- The SQL value `CAST(SUM(CASE WHEN is_arrested = TRUE THEN 1 ELSE 0 END) AS REAL)
* 100 / COUNT(*)` for one age-group, with SQL real division modelled by
rational division. -/
def ageGroupRate (rows : List TrafficStop) (g : String) : ℚ :=
  (((rows.filter (fun r => ageGroupOfCol r.driver_age == g)).filter
        (fun r => r.is_arrested)).length * 100 : ℚ) /
    ((rows.filter (fun r => ageGroupOfCol r.driver_age == g)).length : ℚ)

/-- Model of the "Arrest Rate by Driver Age Group" query of `app.py`: group by age
bracket, compute the arrest percentage, `ORDER BY` the percentage
descending. -/
def arrestRateByAgeGroup (rows : List TrafficStop) : List (String × ℚ) :=
  List.insertionSort rateDescOrder
    ((distinctKeys (rows.map (fun r => ageGroupOfCol r.driver_age))).map
      (fun g => (g, ageGroupRate rows g)))

/-- Search percentage of one violation group. -/
def violSearchRate (rows : List TrafficStop) (v : String) : ℚ :=
  (((rows.filter (fun r => r.violation == v)).filter
        (fun r => r.search_conducted)).length * 100 : ℚ) /
    ((rows.filter (fun r => r.violation == v)).length : ℚ)

/-- Arrest percentage of one violation group. -/
def violArrestRate (rows : List TrafficStop) (v : String) : ℚ :=
  (((rows.filter (fun r => r.violation == v)).filter
        (fun r => r.is_arrested)).length * 100 : ℚ) /
    ((rows.filter (fun r => r.violation == v)).length : ℚ)

/-- Order on (violation, search, arrest, combined) rows for
`ORDER BY combined_rate DESC`. -/
def combinedDescOrder (a b : String × ℚ × ℚ × ℚ) : Prop := b.2.2.2 ≤ a.2.2.2

instance : DecidableRel combinedDescOrder := fun a b =>
  inferInstanceAs (Decidable (b.2.2.2 ≤ a.2.2.2))

instance : IsTotal (String × ℚ × ℚ × ℚ) combinedDescOrder :=
  ⟨fun a b => le_total b.2.2.2 a.2.2.2⟩

instance : IsTrans (String × ℚ × ℚ × ℚ) combinedDescOrder :=
  ⟨fun _ _ _ h1 h2 => le_trans h2 h1⟩

/-- The "Violations with High Search/Arrest Rates" query of `app.py`:
per violation, the search rate, the arrest rate, and
`(search_rate + arrest_rate) / 2` as `combined_rate`, ordered by
`combined_rate` descending. -/
def violationRates (rows : List TrafficStop) : List (String × ℚ × ℚ × ℚ) :=
  List.insertionSort combinedDescOrder
    ((distinctKeys (rows.map (fun r => r.violation))).map
      (fun v =>
        (v, violSearchRate rows v, violArrestRate rows v,
          (violSearchRate rows v + violArrestRate rows v) / 2)))

/-- Order on (vehicle, count) rows for `ORDER BY drug_stop_count DESC`. -/
def countDescOrder (a b : String × Nat) : Prop := b.2 ≤ a.2

instance : DecidableRel countDescOrder := fun a b =>
  inferInstanceAs (Decidable (b.2 ≤ a.2))

instance : IsTotal (String × Nat) countDescOrder := ⟨fun a b => le_total b.2 a.2⟩

instance : IsTrans (String × Nat) countDescOrder := ⟨fun _ _ _ h1 h2 => le_trans h2 h1⟩

/-- The "Top 10 Vehicles in Drug-Related Stops" query of `app.py`:
count rows per non-null vehicle among drug-related stops, order by count
descending, `LIMIT 10`. -/
def topDrugVehicles (rows : List TrafficStop) : List (String × Nat) :=
  (List.insertionSort countDescOrder
      ((distinctKeys
          (rows.filterMap (fun r =>
            if r.drugs_related_stop then r.vehicle_number else none))).map
        (fun v =>
          (v, (rows.filter (fun r =>
                r.drugs_related_stop && (r.vehicle_number == some v))).length)))).take 10

/-- The three entries of the `ANALYTICS_QUERIES` dictionary, as abstract
query names. -/
inductive AnalyticsQuery where
  | topDrugVehiclesQ
  | arrestRateByAgeQ
  | violationRiskQ
deriving DecidableEq

/-- The `ANALYTICS_QUERIES` dictionary of `app.py`: its exact key strings,
each mapped to the query it denotes. -/
def ANALYTICS_QUERIES : List (String × AnalyticsQuery) :=
  [("Top 10 Vehicles in Drug-Related Stops [cite: 56]", AnalyticsQuery.topDrugVehiclesQ),
   ("Arrest Rate by Driver Age Group [cite: 59]", AnalyticsQuery.arrestRateByAgeQ),
   ("Violations with High Search/Arrest Rates [cite: 80]", AnalyticsQuery.violationRiskQ)]

/-- One row of an analytics result table. -/
inductive AggRow where
  | drugCount (vehicle : String) (n : Nat)
  | ageRate (g : String) (r : ℚ)
  | violRisk (v : String) (s a c : ℚ)
deriving DecidableEq

/-- Run one catalog query over the stored table. -/
def runAnalyticsQuery : AnalyticsQuery → List TrafficStop → List AggRow
  | AnalyticsQuery.topDrugVehiclesQ, rows =>
    (topDrugVehicles rows).map (fun p => AggRow.drugCount p.1 p.2)
  | AnalyticsQuery.arrestRateByAgeQ, rows =>
    (arrestRateByAgeGroup rows).map (fun p => AggRow.ageRate p.1 p.2)
  | AnalyticsQuery.violationRiskQ, rows =>
    (violationRates rows).map (fun p => AggRow.violRisk p.1 p.2.1 p.2.2.1 p.2.2.2)

/-- The error a caller sees for an unknown query name
(`ANALYTICS_QUERIES[name]` raises `KeyError`; the spec calls it
`QueryError(NotFound)`). -/
inductive QueryError where
  | notFound
deriving DecidableEq

/-- Dictionary lookup `ANALYTICS_QUERIES[name]`. -/
def lookupQuery (name : String) : Option AnalyticsQuery :=
  (ANALYTICS_QUERIES.find? (fun p => p.1 == name)).map (fun p => p.2)

/-- Model of `query_selection` plus the "Run Analytics Query" button of `app.py`: look the name up
in the catalog and execute the query.  All three catalog queries are
`SELECT`s, so the stored table is returned unchanged; an unknown name
fails with `QueryError.notFound` and no query runs. -/
def runQuery (name : String) (table : List TrafficStop) :
    Except QueryError (List AggRow) × List TrafficStop :=
  match lookupQuery name with
  | none => (Except.error QueryError.notFound, table)
  | some q => (Except.ok (runAnalyticsQuery q table), table)

/-- A row as serialized by `DataFrame.to_sql`: column name / value pairs. -/
abbrev Record := List (String × Val)

/-- The data-loading step of `create_and_load_database` in
`process_data.py`: `df.to_sql(..., if_exists='append', index=True,
index_label='stop_id')` appends the frame's rows to the stored table in
frame order, writing each row's frame index — its 0-based position, since
`read_csv` and `preprocess_data` keep the default `RangeIndex` — as the
`stop_id` column. -/
def create_and_load_database (df : List Record) (table : List (Nat × Record)) :
    List (Nat × Record) :=
  table ++ df.enum

/-- A two-row raw input frame with the canonical columns: row 0 has
`search_conducted = False` with a missing `search_type` and row 1 has a
missing `vehicle_number`, so both fill steps act. -/
def dfMain : DataFrame :=
  [("stop_date", [Val.vStr "2020-01-01", Val.vStr "2020-01-02"]),
   ("stop_time", [Val.vStr "10:30:00", Val.vStr "11:00:00"]),
   ("country_name", [Val.vStr "India", Val.vStr "Canada"]),
   ("driver_age", [Val.vInt 27, Val.vInt 19]),
   ("search_conducted", [Val.vBool false, Val.vBool true]),
   ("search_type", [Val.vNull, Val.vStr "Vehicle Search"]),
   ("is_arrested", [Val.vBool false, Val.vBool true]),
   ("drugs_related_stop", [Val.vBool false, Val.vBool false]),
   ("vehicle_number", [Val.vStr "RJ83PZ4441", Val.vNull]),
   ("driver_age_raw", [Val.vStr "27", Val.vStr "19"])]

/-- The frame `preprocess_data` produces from `dfMain`. -/
def outMain : DataFrame :=
  [("stop_date", [Val.vDate ⟨2020, 1, 1⟩, Val.vDate ⟨2020, 1, 2⟩]),
   ("stop_time", [Val.vTime ⟨10, 30, 0⟩, Val.vTime ⟨11, 0, 0⟩]),
   ("country_name", [Val.vStr "India", Val.vStr "Canada"]),
   ("driver_age", [Val.vInt 27, Val.vInt 19]),
   ("search_conducted", [Val.vBool false, Val.vBool true]),
   ("search_type", [Val.vStr "None Conducted", Val.vStr "Vehicle Search"]),
   ("is_arrested", [Val.vBool false, Val.vBool true]),
   ("drugs_related_stop", [Val.vBool false, Val.vBool false]),
   ("vehicle_number", [Val.vStr "RJ83PZ4441", Val.vStr "Unknown"])]

/-- A one-row input frame whose single row has `search_conducted = False`
together with a non-missing `search_type`. -/
def dfC2 : DataFrame :=
  [("stop_date", [Val.vStr "2020-03-05"]),
   ("stop_time", [Val.vStr "09:15:00"]),
   ("country_name", [Val.vStr "India"]),
   ("search_conducted", [Val.vBool false]),
   ("search_type", [Val.vStr "Probable Cause"]),
   ("is_arrested", [Val.vBool false]),
   ("drugs_related_stop", [Val.vBool false]),
   ("vehicle_number", [Val.vStr "MH12AB1234"])]

/-- The frame `preprocess_data` produces from `dfC2`. -/
def outC2 : DataFrame :=
  [("stop_date", [Val.vDate ⟨2020, 3, 5⟩]),
   ("stop_time", [Val.vTime ⟨9, 15, 0⟩]),
   ("country_name", [Val.vStr "India"]),
   ("search_conducted", [Val.vBool false]),
   ("search_type", [Val.vStr "Probable Cause"]),
   ("is_arrested", [Val.vBool false]),
   ("drugs_related_stop", [Val.vBool false]),
   ("vehicle_number", [Val.vStr "MH12AB1234"])]

/-- A one-row input frame whose `search_type` column is entirely missing
(every cell null). -/
def dfC10 : DataFrame :=
  [("stop_date", [Val.vStr "2020-01-01"]),
   ("stop_time", [Val.vStr "10:30:00"]),
   ("country_name", [Val.vStr "India"]),
   ("search_conducted", [Val.vBool false]),
   ("search_type", [Val.vNull]),
   ("is_arrested", [Val.vBool false]),
   ("drugs_related_stop", [Val.vBool false]),
   ("vehicle_number", [Val.vStr "KA01AB1234"])]

/-- A stored row whose `country_name` is "zzz" and whose vehicle number is
"AxB": it matches the interpolated pattern `%A%B%` without containing the
search term `A%B` as a substring. -/
def rowCX : TrafficStop :=
  mkStop 1 ⟨2020, 5, 1⟩ ⟨9, 0, 0⟩ "zzz" (some "AxB") (some 30) "Speeding"
    false false false

/-- Two stored rows for exercising the record search at term "RJ". -/
def rowsRJ : List TrafficStop :=
  [mkStop 1 ⟨2020, 5, 1⟩ ⟨9, 0, 0⟩ "India" (some "RJ83PZ4441") (some 30)
     "Speeding" false false false,
   mkStop 2 ⟨2020, 5, 2⟩ ⟨10, 0, 0⟩ "Canada" (some "KA01AB1234") (some 40)
     "DUI" false false false]

/-- The four stored rows of the spec's worked example: ages 20 (arrested),
24 (not), 30 (arrested), 30 (arrested). -/
def rowsC6 : List TrafficStop :=
  [mkStop 0 ⟨2020, 1, 1⟩ ⟨8, 0, 0⟩ "India" (some "V1") (some 20) "Speeding"
     false true false,
   mkStop 1 ⟨2020, 1, 1⟩ ⟨9, 0, 0⟩ "India" (some "V2") (some 24) "Speeding"
     false false false,
   mkStop 2 ⟨2020, 1, 1⟩ ⟨10, 0, 0⟩ "India" (some "V3") (some 30) "DUI"
     true true false,
   mkStop 3 ⟨2020, 1, 1⟩ ⟨11, 0, 0⟩ "India" (some "V4") (some 30) "DUI"
     false true false]

/-! ### Helper lemmas about the data-frame model -/

theorem except_bind_ok {ε α β : Type} {x : Except ε α} {f : α → Except ε β} {b : β}
    (h : (x >>= f) = Except.ok b) : ∃ a, x = Except.ok a ∧ f a = Except.ok b := by
  cases x with
  | ok a => exact ⟨a, rfl, h⟩
  | error e => simp [Bind.bind, Except.bind] at h

theorem mapE_pure_eq_map (g : Val → Val) :
    ∀ vs : List Val, mapE (fun v => Except.ok (g v)) vs = Except.ok (vs.map g) := by
  intro vs
  induction vs with
  | nil => rfl
  | cons v vs ih => simp [mapE, ih, Bind.bind, Except.bind]

theorem mapE_ok_forall {f : Val → Except String Val} :
    ∀ {vs ws : List Val}, mapE f vs = Except.ok ws →
      ∀ v ∈ vs, ∃ w ∈ ws, f v = Except.ok w := by
  intro vs
  induction vs with
  | nil => intro ws _ v hv; cases hv
  | cons x xs ih =>
    intro ws h v hv
    rw [mapE] at h
    obtain ⟨w, hw, h2⟩ := except_bind_ok h
    obtain ⟨ws', hws', h3⟩ := except_bind_ok h2
    have hwseq : ws = w :: ws' := by
      cases h3
      rfl
    subst hwseq
    rcases List.mem_cons.mp hv with rfl | hv'
    · exact ⟨w, List.mem_cons_self _ _, hw⟩
    · obtain ⟨w', hw1, hw2⟩ := ih hws' v hv'
      exact ⟨w', List.mem_cons_of_mem _ hw1, hw2⟩

theorem mapColM_ok {f : Val → Except String Val} {n : String} {df out : DataFrame}
    (h : mapColM f n df = Except.ok out) :
    ∃ vs ws, getCol n df = some vs ∧ mapE f vs = Except.ok ws ∧ out = setCol n ws df := by
  unfold mapColM at h
  cases hg : getCol n df with
  | none => rw [hg] at h; cases h
  | some vs =>
    rw [hg] at h
    obtain ⟨ws, hws, h2⟩ := except_bind_ok h
    refine ⟨vs, ws, rfl, hws, ?_⟩
    cases h2
    rfl

theorem find?_setCol {m n : String} {vs : List Val} {df : DataFrame} :
    (setCol m vs df).find? (fun c => c.1 == n) =
      (df.find? (fun c => c.1 == n)).map
        (fun c => if c.1 == m then (c.1, vs) else c) := by
  unfold setCol
  rw [List.find?_map]
  have hcomp : ((fun c : String × List Val => c.1 == n) ∘
      fun c => if c.1 == m then (c.1, vs) else c) =
      (fun c : String × List Val => c.1 == n) := by
    funext c
    by_cases hc : c.1 = m <;> simp [hc]
  rw [hcomp]

theorem getCol_setCol_ne {m n : String} {vs : List Val} {df : DataFrame}
    (h : n ≠ m) : getCol n (setCol m vs df) = getCol n df := by
  unfold getCol
  rw [find?_setCol]
  cases hf : df.find? (fun c => c.1 == n) with
  | none => rfl
  | some c =>
    have hk := List.find?_some hf
    have hk' : c.1 = n := by simpa using hk
    simp [hk', h]

theorem getCol_setCol_self {n : String} {vs ws : List Val} {df : DataFrame}
    (h : getCol n df = some vs) : getCol n (setCol n ws df) = some ws := by
  unfold getCol at h ⊢
  rw [find?_setCol]
  cases hf : df.find? (fun c => c.1 == n) with
  | none => rw [hf] at h; cases h
  | some c =>
    have hk := List.find?_some hf
    have hk2 : c.1 = n := by simpa using hk
    simp [hk2]

theorem mapColM_preserves {f : Val → Except String Val} {m : String}
    {df out : DataFrame} {n : String} (h : mapColM f m df = Except.ok out)
    (hne : n ≠ m) : getCol n out = getCol n df := by
  obtain ⟨vs, ws, _, _, hout⟩ := mapColM_ok h
  rw [hout]
  exact getCol_setCol_ne hne

theorem find?_filter_of_found {α : Type} {q p : α → Bool} {l : List α} {c : α}
    (h : l.find? q = some c) (hp : p c = true) :
    (l.filter p).find? q = some c := by
  induction l with
  | nil => cases h
  | cons a as ih =>
    by_cases hq : q a = true
    · rw [List.find?_cons_of_pos _ hq] at h
      cases h
      rw [List.filter_cons_of_pos hp]
      exact List.find?_cons_of_pos _ hq
    · rw [List.find?_cons_of_neg _ hq] at h
      by_cases hpa : p a = true
      · rw [List.filter_cons_of_pos hpa, List.find?_cons_of_neg _ hq]
        exact ih h
      · rw [List.filter_cons_of_neg hpa]
        exact ih h

theorem getCol_mem {n : String} {vs : List Val} {df : DataFrame}
    (h : getCol n df = some vs) :
    ∃ c, c ∈ df ∧ c.1 = n ∧ c.2 = vs := by
  unfold getCol at h
  cases hf : df.find? (fun c => c.1 == n) with
  | none => rw [hf] at h; cases h
  | some c =>
    rw [hf] at h
    have hm := List.mem_of_find?_eq_some hf
    have hk := List.find?_some hf
    have : c.2 = vs := by cases h; rfl
    exact ⟨c, hm, by simpa using hk, this⟩

theorem getCol_filter_kept {n : String} {vs : List Val} {p : String × List Val → Bool}
    {df : DataFrame} (h : getCol n df = some vs)
    (hp : ∀ c : String × List Val, c.1 = n → c.2 = vs → p c = true) :
    getCol n (df.filter p) = some vs := by
  unfold getCol at h ⊢
  cases hf : df.find? (fun c => c.1 == n) with
  | none => rw [hf] at h; cases h
  | some c =>
    rw [hf] at h
    have hk := List.find?_some hf
    have hcv : c.2 = vs := by cases h; rfl
    rw [find?_filter_of_found hf (hp c (by simpa using hk) hcv)]
    simp [hcv]

theorem preprocess_data_ok_elim {df out : DataFrame}
    (h : preprocess_data df = Except.ok out) :
    ∃ c3 c4 c5 c6 c7 c8,
      mapColM (fun v => Except.ok (fillVal "None Conducted" v)) "search_type"
          (dropColIgnore "driver_age_raw" (dropAllNullCols df)) = Except.ok c3 ∧
      mapColM (fun v => Except.ok (fillVal "Unknown" v)) "vehicle_number" c3 = Except.ok c4 ∧
      mapColM (fun v => Except.ok (Val.vBool (pyBool v))) "search_conducted" c4 = Except.ok c5 ∧
      mapColM (fun v => Except.ok (Val.vBool (pyBool v))) "is_arrested" c5 = Except.ok c6 ∧
      mapColM (fun v => Except.ok (Val.vBool (pyBool v))) "drugs_related_stop" c6 = Except.ok c7 ∧
      mapColM parseDateVal "stop_date" c7 = Except.ok c8 ∧
      mapColM parseTimeVal "stop_time" c8 = Except.ok out := by
  unfold preprocess_data at h
  obtain ⟨c3, h3, h⟩ := except_bind_ok h
  obtain ⟨c4, h4, h⟩ := except_bind_ok h
  obtain ⟨c5, h5, h⟩ := except_bind_ok h
  obtain ⟨c6, h6, h⟩ := except_bind_ok h
  obtain ⟨c7, h7, h⟩ := except_bind_ok h
  obtain ⟨c8, h8, h⟩ := except_bind_ok h
  obtain ⟨c9, h9, h⟩ := except_bind_ok h
  have : c9 = out := by cases h; rfl
  subst this
  exact ⟨c3, c4, c5, c6, c7, c8, h3, h4, h5, h6, h7, h8, h9⟩

theorem nodup_names_filter {df : DataFrame} {p : String × List Val → Bool}
    (hnd : (df.map (fun c => c.1)).Nodup) :
    ((df.filter p).map (fun c => c.1)).Nodup :=
  List.Nodup.sublist (List.Sublist.map _ (List.filter_sublist df)) hnd

theorem getCol_of_mem_nodup {df : DataFrame} {n : String} {c : String × List Val}
    (hnd : (df.map (fun c => c.1)).Nodup) (hm : c ∈ df) (hk : c.1 = n) :
    getCol n df = some c.2 := by
  induction df with
  | nil => cases hm
  | cons a as ih =>
    rw [List.map_cons, List.nodup_cons] at hnd
    rcases List.mem_cons.mp hm with rfl | hm'
    · unfold getCol
      rw [List.find?_cons_of_pos _ (by simp [hk])]
      rfl
    · have hne : ¬ a.1 = n := by
        intro he
        exact hnd.1 (he ▸ hk ▸ List.mem_map.mpr ⟨c, hm', rfl⟩)
      unfold getCol
      rw [List.find?_cons_of_neg _ (by simp [hne])]
      exact ih hnd.2 hm'

theorem getCol_filter_nodup {df : DataFrame} {p : String × List Val → Bool}
    {n : String} {vs : List Val} (hnd : (df.map (fun c => c.1)).Nodup)
    (h : getCol n (df.filter p) = some vs) : getCol n df = some vs := by
  obtain ⟨c, hm, hk, hv⟩ := getCol_mem h
  exact hv ▸ getCol_of_mem_nodup hnd (List.mem_of_mem_filter hm) hk

/-! ### Claims about the normalizer -/

/-- C2 (amended): for every input frame with unique column names on which
normalization succeeds, the output `search_type` column is the input
column with each missing cell replaced by the literal "None Conducted" and
every non-missing cell — whatever `search_conducted` holds — left
unchanged. -/
theorem preprocess_search_type_fill (df out : DataFrame)
    (hnd : (df.map (fun c => c.1)).Nodup)
    (h : preprocess_data df = Except.ok out) :
    ∃ vs, getCol "search_type" df = some vs ∧
      getCol "search_type" out = some (vs.map (fillVal "None Conducted")) := by
  obtain ⟨c3, c4, c5, c6, c7, c8, h3, h4, h5, h6, h7, h8, h9⟩ := preprocess_data_ok_elim h
  obtain ⟨vs, ws, hg, hmap, hset⟩ := mapColM_ok h3
  rw [mapE_pure_eq_map] at hmap
  have hws : ws = vs.map (fillVal "None Conducted") := by cases hmap; rfl
  refine ⟨vs, ?_, ?_⟩
  · exact getCol_filter_nodup hnd (getCol_filter_nodup (nodup_names_filter hnd) hg)
  · have hc3 : getCol "search_type" c3 = some ws := hset ▸ getCol_setCol_self hg
    have hout : getCol "search_type" out = some ws := by
      rw [mapColM_preserves h9 (by decide), mapColM_preserves h8 (by decide),
          mapColM_preserves h7 (by decide), mapColM_preserves h6 (by decide),
          mapColM_preserves h5 (by decide), mapColM_preserves h4 (by decide)]
      exact hc3
    rw [hout, hws]

/-- C2 witness: the amended theorem applied to the concrete frame
`dfMain`, whose first row has a missing `search_type`. -/
theorem preprocess_search_type_fill_witness :
    ∃ vs, getCol "search_type" dfMain = some vs ∧
      getCol "search_type" outMain = some (vs.map (fillVal "None Conducted")) :=
  preprocess_search_type_fill dfMain outMain (by decide) (by decide)

/-- C2 counterexample: a row with `search_conducted = False` and a
non-missing `search_type` keeps its prior `search_type` after
normalization, so `search_type` is not set to "None Conducted" regardless
of prior value. -/
theorem preprocess_search_type_counterexample :
    preprocess_data dfC2 = Except.ok outC2 ∧
    getCol "search_conducted" outC2 = some [Val.vBool false] ∧
    getCol "search_type" outC2 = some [Val.vStr "Probable Cause"] ∧
    Val.vStr "Probable Cause" ≠ Val.vStr "None Conducted" := by
  refine ⟨by decide, by decide, by decide, by decide⟩

/-- C5: on every input frame on which normalization succeeds, the output
columns `search_conducted`, `is_arrested` and `drugs_related_stop` hold
strict booleans in every row (never a missing value), and the coercion
maps every non-empty, non-zero, non-"false" input representation to
`true`. -/
theorem preprocess_bool_columns (df out : DataFrame)
    (h : preprocess_data df = Except.ok out) :
    (∀ n, n = "search_conducted" ∨ n = "is_arrested" ∨ n = "drugs_related_stop" →
      ∃ vs, getCol n out = some vs ∧ ∀ v ∈ vs, ∃ b, v = Val.vBool b) ∧
    (∀ v : Val, (∀ s, v = Val.vStr s → s ≠ "" ∧ s ≠ "false") →
      (∀ i : Int, v = Val.vInt i → i ≠ 0) → v ≠ Val.vBool false →
      pyBool v = true) := by
  obtain ⟨c3, c4, c5, c6, c7, c8, h3, h4, h5, h6, h7, h8, h9⟩ := preprocess_data_ok_elim h
  constructor
  · intro n hn
    rcases hn with rfl | rfl | rfl
    · obtain ⟨vs, ws, hg, hmap, hset⟩ := mapColM_ok h5
      rw [mapE_pure_eq_map] at hmap
      have hws : ws = vs.map (fun v => Val.vBool (pyBool v)) := by cases hmap; rfl
      have hcol : getCol "search_conducted" c5 = some ws := hset ▸ getCol_setCol_self hg
      have hout : getCol "search_conducted" out = some ws := by
        rw [mapColM_preserves h9 (by decide), mapColM_preserves h8 (by decide),
            mapColM_preserves h7 (by decide), mapColM_preserves h6 (by decide)]
        exact hcol
      refine ⟨ws, hout, ?_⟩
      intro v hv
      rw [hws] at hv
      obtain ⟨u, _, hu⟩ := List.mem_map.mp hv
      exact ⟨pyBool u, hu.symm⟩
    · obtain ⟨vs, ws, hg, hmap, hset⟩ := mapColM_ok h6
      rw [mapE_pure_eq_map] at hmap
      have hws : ws = vs.map (fun v => Val.vBool (pyBool v)) := by cases hmap; rfl
      have hcol : getCol "is_arrested" c6 = some ws := hset ▸ getCol_setCol_self hg
      have hout : getCol "is_arrested" out = some ws := by
        rw [mapColM_preserves h9 (by decide), mapColM_preserves h8 (by decide),
            mapColM_preserves h7 (by decide)]
        exact hcol
      refine ⟨ws, hout, ?_⟩
      intro v hv
      rw [hws] at hv
      obtain ⟨u, _, hu⟩ := List.mem_map.mp hv
      exact ⟨pyBool u, hu.symm⟩
    · obtain ⟨vs, ws, hg, hmap, hset⟩ := mapColM_ok h7
      rw [mapE_pure_eq_map] at hmap
      have hws : ws = vs.map (fun v => Val.vBool (pyBool v)) := by cases hmap; rfl
      have hcol : getCol "drugs_related_stop" c7 = some ws := hset ▸ getCol_setCol_self hg
      have hout : getCol "drugs_related_stop" out = some ws := by
        rw [mapColM_preserves h9 (by decide), mapColM_preserves h8 (by decide)]
        exact hcol
      refine ⟨ws, hout, ?_⟩
      intro v hv
      rw [hws] at hv
      obtain ⟨u, _, hu⟩ := List.mem_map.mp hv
      exact ⟨pyBool u, hu.symm⟩
  · intro v hs hi hb
    cases v with
    | vNull => rfl
    | vStr s =>
      have := hs s rfl
      simp [pyBool, this.1]
    | vBool b =>
      cases b with
      | false => exact absurd rfl hb
      | true => rfl
    | vInt i =>
      have := hi i rfl
      simp [pyBool, this]
    | vDate d => rfl
    | vTime t => rfl

/-- C5 witness: the theorem applied to the concrete frame `dfMain`. -/
theorem preprocess_bool_columns_witness :
    ∃ vs, getCol "search_conducted" outMain = some vs ∧
      ∀ v ∈ vs, ∃ b, v = Val.vBool b :=
  (preprocess_bool_columns dfMain outMain (by decide)).1 "search_conducted" (Or.inl rfl)

/-- C4 (amended): normalization is not idempotent.  Whenever
`preprocess_data` succeeds, running it again on its own output fails:
the first pass turns the `stop_time` column into `datetime.time` values,
which `pd.to_datetime` rejects, so renormalizing already-clean data
raises instead of changing nothing. -/
theorem preprocess_renormalize_fails (df out : DataFrame)
    (h : preprocess_data df = Except.ok out) :
    isOkE (preprocess_data out) = false := by
  obtain ⟨c3, c4, c5, c6, c7, c8, h3, h4, h5, h6, h7, h8, h9⟩ := preprocess_data_ok_elim h
  obtain ⟨vs, ws, hg8, hmap, hset⟩ := mapColM_ok h9
  have hg2 : getCol "stop_time" (dropColIgnore "driver_age_raw" (dropAllNullCols df))
      = some vs := by
    rw [← mapColM_preserves h3 (by decide), ← mapColM_preserves h4 (by decide),
        ← mapColM_preserves h5 (by decide), ← mapColM_preserves h6 (by decide),
        ← mapColM_preserves h7 (by decide), ← mapColM_preserves h8 (by decide)]
    exact hg8
  obtain ⟨c, hcmem, hck, hcv⟩ := getCol_mem hg2
  have hc1 : c ∈ dropAllNullCols df := List.mem_of_mem_filter hcmem
  have hpred := (List.mem_filter.mp hc1).2
  rw [hcv] at hpred
  obtain ⟨v, hvmem, hvnn⟩ := List.any_eq_true.mp hpred
  have hvnn' : v ≠ Val.vNull := by simpa using hvnn
  obtain ⟨w, hwmem, hwok⟩ := mapE_ok_forall hmap v hvmem
  have hwt : ∃ t, Val.vTime t = w := by
    cases v with
    | vNull => exact absurd rfl hvnn'
    | vStr s =>
      cases hps : parseTimeStr s with
      | none => simp [parseTimeVal, hps] at hwok
      | some t =>
        simp only [parseTimeVal, hps] at hwok
        exact ⟨t, by cases hwok; rfl⟩
    | vBool b => simp [parseTimeVal] at hwok
    | vInt i => simp [parseTimeVal] at hwok
    | vDate d => simp [parseTimeVal] at hwok
    | vTime t => simp [parseTimeVal] at hwok
  obtain ⟨t, ht⟩ := hwt
  have hgout : getCol "stop_time" out = some ws := hset ▸ getCol_setCol_self hg8
  cases hrun2 : preprocess_data out with
  | error e => rfl
  | ok Z =>
    exfalso
    obtain ⟨d3, d4, d5, d6, d7, d8, g3, g4, g5, g6, g7, g8, g9⟩ :=
      preprocess_data_ok_elim hrun2
    have hf1 : getCol "stop_time" (dropAllNullCols out) = some ws := by
      unfold dropAllNullCols
      apply getCol_filter_kept hgout
      intro c' _ hc2
      rw [hc2]
      exact List.any_eq_true.mpr ⟨w, hwmem, by rw [← ht]; rfl⟩
    have hf2 : getCol "stop_time"
        (dropColIgnore "driver_age_raw" (dropAllNullCols out)) = some ws := by
      unfold dropColIgnore
      apply getCol_filter_kept hf1
      intro c' hc1' _
      rw [hc1']
      rfl
    have hd8 : getCol "stop_time" d8 = some ws := by
      rw [mapColM_preserves g8 (by decide), mapColM_preserves g7 (by decide),
          mapColM_preserves g6 (by decide), mapColM_preserves g5 (by decide),
          mapColM_preserves g4 (by decide), mapColM_preserves g3 (by decide)]
      exact hf2
    obtain ⟨vs2, ws2, hg82, hmap2, _⟩ := mapColM_ok g9
    rw [hd8] at hg82
    have hvs2 : vs2 = ws := by cases hg82; rfl
    subst hvs2
    obtain ⟨w2, _, hok2⟩ := mapE_ok_forall hmap2 w hwmem
    rw [← ht] at hok2
    simp [parseTimeVal] at hok2

/-- C4 witness: the amended theorem applied to the concrete frame
`dfMain` and its normalization `outMain`. -/
theorem preprocess_renormalize_fails_witness :
    isOkE (preprocess_data outMain) = false :=
  preprocess_renormalize_fails dfMain outMain (by decide)

/-- C4 counterexample: normalizing `dfMain` succeeds with `outMain`, but
normalizing `outMain` does not return `outMain` again (it raises), so
`normalize (normalize dfMain) ≠ normalize dfMain`. -/
theorem preprocess_not_idempotent_counterexample :
    preprocess_data dfMain = Except.ok outMain ∧
    preprocess_data outMain ≠ Except.ok outMain := by
  refine ⟨by decide, by decide⟩

theorem runInPlace_get?_ne :
    ∀ (steps : List (DataFrame → Except String DataFrame)) (h : Heap) (r i : Nat),
      i ≠ r → (runInPlace h r steps).get? i = h.get? i := by
  intro steps
  induction steps with
  | nil => intro h r i _; rfl
  | cons s rest ih =>
    intro h r i hne
    cases hg : h.get? r with
    | none => simp only [runInPlace, hg]
    | some d =>
      cases hs : s d with
      | error e => simp only [runInPlace, hg, hs]
      | ok d' =>
        simp only [runInPlace, hg, hs]
        rw [ih _ r i hne, List.get?_set_ne d' h (Ne.symm hne)]

/-- C9: the normalizer never mutates its input.  In the heap semantics of
`preprocess_data`, the caller's DataFrame (heap address 0) is unchanged
after the pipeline runs: `dropna`/`drop` return fresh objects and all
in-place column assignments target the fresh `df_cleaned` object. -/
theorem preprocess_never_mutates_input (df : DataFrame) :
    (preprocess_data_heap df).get? 0 = some df := by
  unfold preprocess_data_heap
  rw [runInPlace_get?_ne dcInPlaceSteps _ 2 0 (by decide)]
  rfl

/-- C9 witness: the theorem evaluated at the concrete frame `dfMain`. -/
theorem preprocess_never_mutates_input_witness :
    (preprocess_data_heap dfMain).get? 0 = some dfMain :=
  preprocess_never_mutates_input dfMain

/-- C10: an input whose `search_type` column is entirely missing makes
normalization raise: step 1 drops the all-null column and the
`search_type` fill step then fails on the missing column, so no clean
rows are produced. -/
theorem preprocess_allnull_column_fails :
    preprocess_data dfC10 = Except.error "KeyError: search_type" := by
  decide

/-- C8: the bulk load appends the frame's rows to the stored table in
exactly the input order, and on the initial batch (empty table) the
`stop_id` written for each row is its 0-based position in the input. -/
theorem bulk_load_preserves_order (df : List Record) (table : List (Nat × Record)) :
    ((create_and_load_database df table).drop table.length).map Prod.snd = df ∧
    (create_and_load_database df table).take table.length = table ∧
    (create_and_load_database df []).map Prod.fst = List.range df.length ∧
    (create_and_load_database df []).map Prod.snd = df := by
  refine ⟨?_, ?_, ?_, ?_⟩
  · unfold create_and_load_database
    rw [List.drop_left]
    exact List.enum_map_snd df
  · unfold create_and_load_database
    exact List.take_left _ _
  · unfold create_and_load_database
    simp [List.enum_map_fst]
  · unfold create_and_load_database
    simp [List.enum_map_snd]

/-- C8 witness: the loader evaluated on a concrete two-record batch. -/
theorem bulk_load_preserves_order_witness :
    ((create_and_load_database [[("country_name", Val.vStr "India")],
        [("country_name", Val.vStr "Canada")]] []).drop 0).map Prod.snd =
      [[("country_name", Val.vStr "India")], [("country_name", Val.vStr "Canada")]] :=
  (bulk_load_preserves_order _ []).1

/-! ### Lemmas about the `LIKE` matcher -/

theorem likeMatchF_congr :
    ∀ (f g : Nat) (ps cs : List Char), ps.length + cs.length < f →
      ps.length + cs.length < g → likeMatchF f ps cs = likeMatchF g ps cs := by
  intro f
  induction f with
  | zero => intro g ps cs hf _; omega
  | succ f ihf =>
    intro g ps cs hf hg
    cases g with
    | zero => omega
    | succ g =>
      cases ps with
      | nil => rfl
      | cons p ps =>
        cases cs with
        | nil =>
          rw [likeMatchF.eq_3, likeMatchF.eq_3]
          by_cases hp : p = '%'
          · rw [if_pos hp, if_pos hp,
              ihf g ps [] (by simp only [List.length_cons, List.length_nil] at hf ⊢; omega)
                (by simp only [List.length_cons, List.length_nil] at hg ⊢; omega)]
          · rw [if_neg hp, if_neg hp]
        | cons c cs' =>
          rw [likeMatchF.eq_4, likeMatchF.eq_4]
          by_cases hp : p = '%'
          · rw [if_pos hp, if_pos hp,
              ihf g ps (c :: cs') (by simp only [List.length_cons, List.length_nil] at hf ⊢; omega)
                (by simp only [List.length_cons, List.length_nil] at hg ⊢; omega),
              ihf g (p :: ps) cs' (by simp only [List.length_cons, List.length_nil] at hf ⊢; omega)
                (by simp only [List.length_cons, List.length_nil] at hg ⊢; omega)]
          · rw [if_neg hp, if_neg hp,
              ihf g ps cs' (by simp only [List.length_cons, List.length_nil] at hf ⊢; omega)
                (by simp only [List.length_cons, List.length_nil] at hg ⊢; omega)]

theorem likeMatch_nil_pattern (cs : List Char) : likeMatch [] cs = cs.isEmpty := rfl

theorem likeMatch_cons_pct (ps cs : List Char) :
    likeMatch ('%' :: ps) cs =
      (likeMatch ps cs ||
        (match cs with
         | [] => false
         | _ :: cs' => likeMatch ('%' :: ps) cs')) := by
  cases cs with
  | nil =>
    simp only [likeMatch]
    rw [likeMatchF.eq_3, if_pos rfl]
    rw [likeMatchF_congr (('%' :: ps).length + List.length []) (ps.length + List.length [] + 1)
      ps [] (by (try simp only [List.length_cons, List.length_nil]); omega)
      (by (try simp only [List.length_cons, List.length_nil]); omega)]
  | cons c cs' =>
    simp only [likeMatch]
    rw [likeMatchF.eq_4, if_pos rfl]
    rw [likeMatchF_congr (('%' :: ps).length + (c :: cs').length) (ps.length + (c :: cs').length + 1)
      ps (c :: cs') (by (try simp only [List.length_cons, List.length_nil]); omega)
      (by (try simp only [List.length_cons, List.length_nil]); omega)]
    rw [likeMatchF_congr (('%' :: ps).length + (c :: cs').length) (('%' :: ps).length + cs'.length + 1)
      ('%' :: ps) cs' (by (try simp only [List.length_cons, List.length_nil]); omega)
      (by (try simp only [List.length_cons, List.length_nil]); omega)]

theorem likeMatch_cons_ne (p : Char) (ps cs : List Char) (hp : p ≠ '%') :
    likeMatch (p :: ps) cs =
      (match cs with
       | [] => false
       | c :: cs' => (if p = '_' then true else likeEq p c) && likeMatch ps cs') := by
  cases cs with
  | nil =>
    simp only [likeMatch]
    rw [likeMatchF.eq_3, if_neg hp]
  | cons c cs' =>
    simp only [likeMatch]
    rw [likeMatchF.eq_4, if_neg hp]
    rw [likeMatchF_congr ((p :: ps).length + (c :: cs').length) (ps.length + cs'.length + 1)
      ps cs' (by (try simp only [List.length_cons, List.length_nil]); omega)
      (by (try simp only [List.length_cons, List.length_nil]); omega)]

theorem likeMatch_pct_all (cs : List Char) : likeMatch ['%'] cs = true := by
  induction cs with
  | nil => rfl
  | cons c cs' ih =>
    rw [likeMatch_cons_pct]
    simp [ih]

theorem likeMatch_append_pct (t : List Char) (hw : noWild t) :
    ∀ cs, likeMatch (t ++ ['%']) cs = startsCI t cs := by
  induction t with
  | nil =>
    intro cs
    simpa [startsCI] using likeMatch_pct_all cs
  | cons p ps ih =>
    intro cs
    have hp : p ≠ '%' := (hw p (List.mem_cons_self _ _)).1
    have hp2 : p ≠ '_' := (hw p (List.mem_cons_self _ _)).2
    have hw' : noWild ps := fun c hc => hw c (List.mem_cons_of_mem _ hc)
    rw [List.cons_append, likeMatch_cons_ne p (ps ++ ['%']) cs hp]
    cases cs with
    | nil => rfl
    | cons c cs' => simp [startsCI, if_neg hp2, ih hw' cs']

theorem likeMatch_substr (t : List Char) (hw : noWild t) :
    ∀ cs, likeMatch ('%' :: (t ++ ['%'])) cs = substrCI t cs := by
  intro cs
  induction cs with
  | nil =>
    rw [likeMatch_cons_pct]
    simp [substrCI, likeMatch_append_pct t hw]
  | cons c cs' ih =>
    rw [likeMatch_cons_pct]
    simp only [substrCI, likeMatch_append_pct t hw, ih]

theorem pattern_toList (term : String) :
    ("%" ++ term ++ "%").toList = '%' :: (term.toList ++ ['%']) := by
  show ("%" ++ term ++ "%").data = _
  rw [String.data_append, String.data_append]
  rfl

/-- C1 (amended): for every search term free of the `LIKE` metacharacters
`%` and `_` (and within the model's scope, quote-free), the record search
returns only stored rows whose `country_name` or `vehicle_number` contains
the term as a substring up to ASCII case (SQLite `LIKE` is
case-insensitive), ordered newest first by `stop_date` then `stop_time`
descending, and returns at most 50 rows even when more rows match. -/
theorem recordSearch_correct (term : String) (rows : List TrafficStop)
    (hw : noWild term.toList) :
    (∀ r ∈ recordSearch term rows, r ∈ rows ∧ (term ≠ "" →
      substrCI term.toList r.country_name.toList = true ∨
      ∃ v, r.vehicle_number = some v ∧ substrCI term.toList v.toList = true)) ∧
    List.Sorted searchOrder (recordSearch term rows) ∧
    (recordSearch term rows).length ≤ 50 := by
  refine ⟨?_, ?_, ?_⟩
  · intro r hr
    have hr1 : r ∈ List.insertionSort searchOrder (searchFiltered term rows) :=
      List.mem_of_mem_take hr
    have hr2 : r ∈ searchFiltered term rows :=
      (List.perm_insertionSort searchOrder _).mem_iff.mp hr1
    unfold searchFiltered at hr2
    by_cases ht : term = ""
    · rw [if_pos ht] at hr2
      exact ⟨hr2, fun hne => absurd ht hne⟩
    · rw [if_neg ht] at hr2
      obtain ⟨hrow, hmatch⟩ := List.mem_filter.mp hr2
      refine ⟨hrow, fun _ => ?_⟩
      rw [rowMatches, pattern_toList term, Bool.or_eq_true] at hmatch
      rcases hmatch with hA | hB
      · rw [likeMatch_substr term.toList hw] at hA
        exact Or.inl hA
      · cases hv : r.vehicle_number with
        | none => rw [hv] at hB; cases hB
        | some v =>
          rw [hv] at hB
          dsimp only at hB
          rw [likeMatch_substr term.toList hw] at hB
          exact Or.inr ⟨v, rfl, hB⟩
  · exact List.Pairwise.sublist (List.take_sublist 50 _)
      (List.sorted_insertionSort searchOrder _)
  · rw [recordSearch, List.length_take]
    exact inf_le_left

/-- C1 witness: the amended theorem applied to the term "RJ" over the
two-row table `rowsRJ`. -/
theorem recordSearch_correct_witness :
    List.Sorted searchOrder (recordSearch "RJ" rowsRJ) ∧
    (recordSearch "RJ" rowsRJ).length ≤ 50 :=
  (recordSearch_correct "RJ" rowsRJ (by unfold noWild; decide)).2

/-- C1 counterexample: with the search term `A%B` the query returns the
row `rowCX` although neither its `country_name` ("zzz") nor its
`vehicle_number` ("AxB") contains `A%B` as a substring — the interpolated
`%` acts as a wildcard inside the `LIKE` pattern. -/
theorem recordSearch_wildcard_counterexample :
    recordSearch "A%B" [rowCX] = [rowCX] ∧
    rowCX.country_name = "zzz" ∧
    rowCX.vehicle_number = some "AxB" ∧
    subLit "A%B".toList "zzz".toList = false ∧
    subLit "A%B".toList "AxB".toList = false := by
  refine ⟨by decide, rfl, rfl, by decide, by decide⟩

/-- C3 (amended): the three named brackets are closed intervals, and every
other age — above 45 but also below 16 — is assigned to "46+", because
"46+" is the `CASE` expression's `ELSE` branch; in particular age 15 is
classified as "46+". -/
theorem ageGroup_classification (a : Int) :
    (ageGroup a = "16-25" ↔ 16 ≤ a ∧ a ≤ 25) ∧
    (ageGroup a = "26-35" ↔ 26 ≤ a ∧ a ≤ 35) ∧
    (ageGroup a = "36-45" ↔ 36 ≤ a ∧ a ≤ 45) ∧
    (ageGroup a = "46+" ↔ (a < 16 ∨ 45 < a)) := by
  unfold ageGroup
  split_ifs with h1 h2 h3 <;> simp <;> omega

/-- C3 witness: the classification evaluated at age 46. -/
theorem ageGroup_classification_witness :
    ageGroup 46 = "46+" ↔ ((46 : Int) < 16 ∨ (45 : Int) < 46) :=
  (ageGroup_classification 46).2.2.2

/-- C3 counterexample: age 15 is not left unclassified — the `ELSE`
branch assigns it the "46+" bracket. -/
theorem ageGroup_under16_counterexample : ageGroup 15 = "46+" := by decide

/-- C6: in the aggregate reports every percentage is
(count of rows with the flag / group size) × 100 under real (rational)
division, `combined_rate` is the unweighted mean of `search_rate` and
`arrest_rate`, and on the worked example (ages 20 arrested, 24 not,
30 arrested, 30 arrested) bracket "16-25" reports 50.0 and "26-35"
reports 100.0. -/
theorem analytics_rate_semantics :
    (∀ (rows : List TrafficStop) (g : String) (r : ℚ),
      (g, r) ∈ arrestRateByAgeGroup rows →
      r = (((rows.filter (fun x => ageGroupOfCol x.driver_age == g)).filter
            (fun x => x.is_arrested)).length * 100 : ℚ) /
          ((rows.filter (fun x => ageGroupOfCol x.driver_age == g)).length : ℚ)) ∧
    (∀ (rows : List TrafficStop) (v : String) (s a c : ℚ),
      (v, s, a, c) ∈ violationRates rows → c = (s + a) / 2) ∧
    ("16-25", (50 : ℚ)) ∈ arrestRateByAgeGroup rowsC6 ∧
    ("26-35", (100 : ℚ)) ∈ arrestRateByAgeGroup rowsC6 := by
  refine ⟨?_, ?_, ?_, ?_⟩
  · intro rows g r hmem
    rw [arrestRateByAgeGroup] at hmem
    have h2 := (List.perm_insertionSort rateDescOrder _).mem_iff.mp hmem
    obtain ⟨g', hg', heq⟩ := List.mem_map.mp h2
    simp only [Prod.mk.injEq] at heq
    obtain ⟨rfl, rfl⟩ := heq
    rfl
  · intro rows v s a c hmem
    rw [violationRates] at hmem
    have h2 := (List.perm_insertionSort combinedDescOrder _).mem_iff.mp hmem
    obtain ⟨v', hv', heq⟩ := List.mem_map.mp h2
    simp only [Prod.mk.injEq] at heq
    obtain ⟨rfl, rfl, rfl, rfl⟩ := heq
    rfl
  · rw [arrestRateByAgeGroup]
    apply (List.perm_insertionSort rateDescOrder _).mem_iff.mpr
    have hd : distinctKeys (rowsC6.map (fun r => ageGroupOfCol r.driver_age)) =
        ["16-25", "26-35"] := by decide
    rw [hd]
    simp only [List.map_cons, List.map_nil]
    have hr : ageGroupRate rowsC6 "16-25" = 50 := by
      rw [ageGroupRate]
      have h1 : ((rowsC6.filter (fun r => ageGroupOfCol r.driver_age == "16-25")).filter
          (fun r => r.is_arrested)).length = 1 := by decide
      have h2 : (rowsC6.filter (fun r => ageGroupOfCol r.driver_age == "16-25")).length = 2 := by
        decide
      rw [h1, h2]
      norm_num
    rw [hr]
    exact List.mem_cons_self _ _
  · rw [arrestRateByAgeGroup]
    apply (List.perm_insertionSort rateDescOrder _).mem_iff.mpr
    have hd : distinctKeys (rowsC6.map (fun r => ageGroupOfCol r.driver_age)) =
        ["16-25", "26-35"] := by decide
    rw [hd]
    simp only [List.map_cons, List.map_nil]
    have hr : ageGroupRate rowsC6 "26-35" = 100 := by
      rw [ageGroupRate]
      have h1 : ((rowsC6.filter (fun r => ageGroupOfCol r.driver_age == "26-35")).filter
          (fun r => r.is_arrested)).length = 2 := by decide
      have h2 : (rowsC6.filter (fun r => ageGroupOfCol r.driver_age == "26-35")).length = 2 := by
        decide
      rw [h1, h2]
      norm_num
    rw [hr]
    exact List.mem_cons_of_mem _ (List.mem_cons_self _ _)

/-- C6 witness: the rate-formula conjunct applied at the worked example's
"16-25" entry, its membership hypothesis discharged by the concrete
conjunct of the theorem itself. -/
theorem analytics_rate_semantics_witness :
    (50 : ℚ) = (((rowsC6.filter (fun x => ageGroupOfCol x.driver_age == "16-25")).filter
        (fun x => x.is_arrested)).length * 100 : ℚ) /
      ((rowsC6.filter (fun x => ageGroupOfCol x.driver_age == "16-25")).length : ℚ) :=
  analytics_rate_semantics.1 rowsC6 "16-25" 50 analytics_rate_semantics.2.2.1

/-- C7: running a query under a name absent from `ANALYTICS_QUERIES`
fails with `QueryError.notFound`, never falls back to a default query,
and returns the stored table unchanged. -/
theorem runQuery_unknown_notFound (name : String) (table : List TrafficStop)
    (h : lookupQuery name = none) :
    runQuery name table = (Except.error QueryError.notFound, table) := by
  rw [runQuery, h]

/-- C7 witness: the name "nonexistent" is not in the catalog, and running
it fails with `QueryError.notFound` leaving the (empty) table unchanged. -/
theorem runQuery_unknown_notFound_witness :
    runQuery "nonexistent" [] = (Except.error QueryError.notFound, ([] : List TrafficStop)) :=
  runQuery_unknown_notFound "nonexistent" [] (by decide)
